import Mathlib

/-!
Shallow embedding of `src/exiftool.py` (PyExifTool): the batch protocol over
the exiftool subprocess, the session lifecycle, and the metadata views.

Bytes are modelled as `Nat` (values 0..255); byte strings as `List Nat`.
The subprocess itself and the stdlib JSON decoder are external collaborators:
where a decoded response is needed, it is supplied by an explicit `oracle`
argument mapping the written batch to the decoded records.
-/

deriving instance DecidableEq for Except

/-- Sentinel indicating the end of the output of a sequence of commands;
the bytes of `b"\x7bready\x7d"` (module-level `sentinel`). -/
def sentinelBytes : List Nat := [123, 114, 101, 97, 100, 121, 125]

/-- The block size when reading from exiftool (module-level `block_size`). -/
def blockSize : Nat := 4096

/-- The ASCII whitespace bytes stripped by Python `bytes.strip()`:
space, tab, newline, carriage return, vertical tab, form feed. -/
def isSpaceByte (b : Nat) : Bool :=
  b == 32 || b == 9 || b == 10 || b == 13 || b == 11 || b == 12

/-- `bytes.lstrip()`: drop leading ASCII whitespace. -/
def stripLeftB (l : List Nat) : List Nat := l.dropWhile isSpaceByte

/-- `bytes.rstrip()`: drop trailing ASCII whitespace. -/
def stripRightB (l : List Nat) : List Nat :=
  (l.reverse.dropWhile isSpaceByte).reverse

/-- Python `bytes.strip()`: drop leading and trailing ASCII whitespace. -/
def stripB (l : List Nat) : List Nat := stripRightB (stripLeftB l)

/-- Python slice `l[-n:]`: the last `n` elements (whole list when shorter). -/
def lastN (n : Nat) (l : List Nat) : List Nat := l.drop (l.length - n)

/-- The loop guard of `ExifTool.execute`:
`output[-32:].strip().endswith(sentinel)`. -/
def sentinelSeen (acc : List Nat) : Bool :=
  sentinelBytes.isSuffixOf (stripB (lastN 32 acc))

/-- The read loop of `ExifTool.execute`: starting from accumulator `acc`,
keep appending the next chunk delivered by the subprocess while the sentinel
has not been seen.  `none` models the loop blocking forever because the
subprocess produced no further bytes and the sentinel never appeared. -/
def readLoop (acc : List Nat) : List (List Nat) → Option (List Nat)
  | [] => if sentinelSeen acc then some acc else none
  | c :: cs => if sentinelSeen acc then some acc else readLoop (acc ++ c) cs

/-- `sep.join(parts)` on byte strings. -/
def joinBy (sep : List Nat) : List (List Nat) → List Nat
  | [] => []
  | [x] => x
  | x :: xs => x ++ sep ++ joinBy sep xs

/-- The bytes of `b"-execute\n"`, appended to every batch. -/
def executeDirective : List Nat := [45, 101, 120, 101, 99, 117, 116, 101, 10]

/-- The wire form of one batch:
`b"\n".join(params + (b"-execute\n",))` from `ExifTool.execute`. -/
def frameParams (params : List (List Nat)) : List Nat :=
  joinBy [10] (params ++ [executeDirective])

/-- The bytes of `b"-stay_open\nFalse\n"` written by `ExifTool.terminate`. -/
def stayOpenDisable : List Nat :=
  [45, 115, 116, 97, 121, 95, 111, 112, 101, 110, 10, 70, 97, 108, 115, 101, 10]

/-- The bytes of `b"-j"` prepended by `ExifTool.execute_json`. -/
def jsonFlag : List Nat := [45, 106]

/-- UTF-8 encoding of one character's code point. -/
def utf8Char (c : Char) : List Nat :=
  let n := c.toNat
  if n < 128 then [n]
  else if n < 2048 then [192 + n / 64, 128 + n % 64]
  else if n < 65536 then [224 + n / 4096, 128 + (n / 64) % 64, 128 + n % 64]
  else [240 + n / 262144, 128 + (n / 4096) % 64, 128 + (n / 64) % 64, 128 + n % 64]

/-- `fsencode` applied to a `str` argument: encode to the filesystem
encoding (modelled as UTF-8). -/
def strBytes (s : String) : List Nat := (s.data.map utf8Char).flatten

/-- Python exceptions that the embedded code can raise. -/
inductive PyErr where
  /-- `ValueError(msg)`. -/
  | valueError (msg : String)
  /-- `AttributeError` for a missing attribute of the given name. -/
  | attributeError (attr : String)
  /-- `KeyError(key)`. -/
  | keyError (key : String)
  /-- The `RuntimeError` produced by a bare `raise` with no active exception. -/
  | bareRaise
  /-- `StopIteration` from `next` on an exhausted iterator. -/
  | stopIteration
  /-- The read loop never observes the sentinel and blocks forever. -/
  | blockedForever
deriving DecidableEq, Repr

/-- A JSON value as decoded by `json.loads` (the shapes the claims need). -/
inductive JVal where
  | str (s : String)
  | num (n : Int)
  | bool (b : Bool)
  | null
deriving DecidableEq, Repr

/-- A decoded metadata record: a JSON object as an ordered key/value list. -/
abbrev Record := List (String × JVal)

/-- Python `dict` lookup returning an `Option` (`d.get(k, None)` is `none`
exactly when the key is absent). -/
def recGet (r : Record) (k : String) : Option JVal :=
  (r.find? (fun kv => kv.1 == k)).map (fun kv => kv.2)

/-- Python `dict.__setitem__` semantics on the ordered key/value list:
update in place when the key exists, else append. -/
def recSet (r : Record) (k : String) (v : JVal) : Record :=
  if (r.find? (fun kv => kv.1 == k)).isSome then
    r.map (fun kv => if kv.1 == k then (k, v) else kv)
  else r ++ [(k, v)]

/-- Python `dict.__delitem__` semantics: remove the key (the caller checks
presence). -/
def recDel (r : Record) (k : String) : Record :=
  r.filter (fun kv => !(kv.1 == k))

/-- The subprocess handle held in `self._process`: its identity and the
bytes written so far to its stdin pipe. -/
structure Proc where
  pid : Nat
  stdinWritten : List Nat
deriving DecidableEq, Repr

/-- The `ExifTool` instance state: the executable name, the `running` flag,
and the `_process` attribute (`none` when the attribute is unset, as after
`__init__` or `del self._process`). -/
structure ExifTool where
  executable : String
  running : Bool
  process : Option Proc
deriving DecidableEq, Repr

/-- `ExifTool.__init__(executable_)`: store the executable (defaulting to
the module-level `"exiftool"`) and mark not running. -/
def ExifTool.init (executableArg : Option String) : ExifTool :=
  { executable := executableArg.getD "exiftool", running := false, process := none }

/-- `ExifTool.start()`.  If already running, warn and do nothing; else spawn
the subprocess (identity supplied by the environment as `freshPid`) and mark
running.  The returned `Bool` records whether the `UserWarning` was issued. -/
def ExifTool.start (s : ExifTool) (freshPid : Nat) : Bool × ExifTool :=
  if s.running then (true, s)
  else (false, { s with running := true,
                        process := some { pid := freshPid, stdinWritten := [] } })

/-- `ExifTool.terminate()`.  If not running, do nothing; else write the
stay-open-disable directive, wait for exit, delete `_process`, and mark not
running. -/
def ExifTool.terminate (s : ExifTool) : ExifTool :=
  if s.running then { s with running := false, process := none } else s

/-- `ExifTool.__enter__` / `__exit__`: `with tool as et: body` — start, run
the body on the started state, terminate on every exit path, propagate the
body result. -/
def withExifTool (s : ExifTool) (freshPid : Nat)
    (body : ExifTool → Except PyErr α × ExifTool) : Except PyErr α × ExifTool :=
  let started := (s.start freshPid).2
  let (res, after) := body started
  (res, after.terminate)

/-- `ExifTool.execute(*params)`.  Raise `ValueError` when not running; else
write the newline-joined batch plus the execute directive, then read chunks
(`chunks` lists what the subprocess delivers to successive `os.read` calls)
until the trailing 32 bytes, whitespace-stripped, end with the sentinel.
Return `output.strip()` with the sentinel suffix sliced off
(`output.strip()[:-len(sentinel)]`). -/
def ExifTool.execute (s : ExifTool) (params : List (List Nat))
    (chunks : List (List Nat)) : Except PyErr (List Nat) × ExifTool :=
  if s.running then
    match s.process with
    | none => (.error (.attributeError "_process"), s)
    | some p =>
      let written := { p with stdinWritten := p.stdinWritten ++ frameParams params }
      let s1 : ExifTool := { s with process := some written }
      match readLoop [] chunks with
      | none => (.error .blockedForever, s1)
      | some out =>
        (.ok ((stripB out).take ((stripB out).length - sentinelBytes.length)), s1)
  else (.error (.valueError "ExifTool instance not running."), s)

/-- `ExifTool.execute_json(*params)`: `json.loads(execute(b"-j", *params))`
after `fsencode`-ing the parameters.  The subprocess byte stream and the
JSON decoding are abstracted by `oracle`, which maps the parameter list of
the underlying `execute` call to the decoded records; the running check and
the stdin write mirror `execute`. -/
def ExifTool.executeJson (s : ExifTool)
    (oracle : List (List Nat) → List Record) (params : List String) :
    Except PyErr (List Record) × ExifTool :=
  let bparams := jsonFlag :: params.map strBytes
  if s.running then
    match s.process with
    | none => (.error (.attributeError "_process"), s)
    | some p =>
      let written := { p with stdinWritten := p.stdinWritten ++ frameParams bparams }
      (.ok (oracle bparams), { s with process := some written })
  else (.error (.valueError "ExifTool instance not running."), s)

/-- A `FileMetadata` object (a `dict` subclass).  `store` is the inherited
dict contents set by `super().__init__(values)`; `edits` is `self._edits`;
`valuesAttr` is the `self._values` attribute, which no method of the class
ever assigns (`none` means the attribute is unset). -/
structure FileMetadata where
  store : Record
  edits : List (String × JVal)
  valuesAttr : Option Record
deriving DecidableEq, Repr

/-- `FileMetadata.__init__(values, exif_tool)`: initialize the inherited
dict with `values` and set `self._edits = []`.  The `exif_tool` argument is
accepted and discarded (the source never stores it); `_values` is never
assigned. -/
def FileMetadata.init (values : Record) (_exifTool : ExifTool) : FileMetadata :=
  { store := values, edits := [], valuesAttr := none }

/-- `FileMetadata.__getitem__(key)`: `return self._values[key]` — an
attribute lookup of `_values` followed by a dict subscript. -/
def FileMetadata.getItem (fm : FileMetadata) (key : String) : Except PyErr JVal :=
  match fm.valuesAttr with
  | none => .error (.attributeError "_values")
  | some vs =>
    match recGet vs key with
    | some v => .ok v
    | none => .error (.keyError key)

/-- `FileMetadata.__setitem__(key, value)`: first
`super().__setitem__(key, value)` mutates the inherited dict, then a bare
`raise` fires with no active exception. -/
def FileMetadata.setItem (fm : FileMetadata) (key : String) (v : JVal) :
    PyErr × FileMetadata :=
  (.bareRaise, { fm with store := recSet fm.store key v })

/-- `FileMetadata.__delitem__(key)`: `super().__delitem__(key)` raises
`KeyError` when the key is absent; otherwise it removes the key and the
subsequent bare `raise` fires. -/
def FileMetadata.delItem (fm : FileMetadata) (key : String) :
    PyErr × FileMetadata :=
  if (fm.store.find? (fun kv => kv.1 == key)).isSome then
    (.bareRaise, { fm with store := recDel fm.store key })
  else (.keyError key, fm)

/-- `FileMetadata.write()`: a bare `raise`, nothing else. -/
def FileMetadata.write (fm : FileMetadata) : PyErr × FileMetadata :=
  (.bareRaise, fm)

/-- A `MultiFileMetadata` view: the stored paths and the referenced
`ExifTool` (the session state the view currently sees). -/
structure MultiFileMetadata where
  file_paths : List String
  exif_tool : ExifTool
deriving DecidableEq, Repr

/-- `MultiFileMetadata._execute(*params)`: reuse the bound session when it
is running, else run the call inside `with self.exif_tool as et`, starting a
private session (`freshPid`) and terminating it before returning.  The
returned `ExifTool` is the state of the bound session after the call. -/
def MultiFileMetadata._execute (m : MultiFileMetadata)
    (oracle : List (List Nat) → List Record) (freshPid : Nat)
    (params : List String) : Except PyErr (List Record) × ExifTool :=
  if m.exif_tool.running then
    m.exif_tool.executeJson oracle params
  else
    withExifTool m.exif_tool freshPid (fun et => et.executeJson oracle params)

/-- `MultiFileMetadata.__iter__`: run `_execute("-r", *self.file_paths)` and
yield one `FileMetadata` per decoded record, in order.  (The generator is
modelled as the fully elaborated list.) -/
def MultiFileMetadata.iterate (m : MultiFileMetadata)
    (oracle : List (List Nat) → List Record) (freshPid : Nat) :
    Except PyErr (List FileMetadata) × ExifTool :=
  let (res, s) := m._execute oracle freshPid ("-r" :: m.file_paths)
  (res.map (fun records => records.map (fun r => FileMetadata.init r s)), s)

/-- `MultiFileMetadata.__getitem__(key)`: run
`_execute("-" + key, "-r", *self.file_paths)` and yield
`exif_values.get(key, None)` per decoded record, in order. -/
def MultiFileMetadata.getItem (m : MultiFileMetadata)
    (oracle : List (List Nat) → List Record) (freshPid : Nat) (key : String) :
    Except PyErr (List (Option JVal)) × ExifTool :=
  let (res, s) := m._execute oracle freshPid (("-" ++ key) :: "-r" :: m.file_paths)
  (res.map (fun records => records.map (fun r => recGet r key)), s)

/-- `MultiFileMetadata.__setitem__`: a bare `raise`, nothing else. -/
def MultiFileMetadata.setItem (m : MultiFileMetadata) (_key : String)
    (_v : JVal) : PyErr × MultiFileMetadata :=
  (.bareRaise, m)

/-- `MultiFileMetadata.__delitem__`: a bare `raise`, nothing else. -/
def MultiFileMetadata.delItem (m : MultiFileMetadata) (_key : String) :
    PyErr × MultiFileMetadata :=
  (.bareRaise, m)

/-- `MultiFileMetadata.write()`: a bare `raise`, nothing else. -/
def MultiFileMetadata.write (m : MultiFileMetadata) : PyErr × MultiFileMetadata :=
  (.bareRaise, m)

/-- The result of `ExifTool.metadata`: a single-file or a multi-file view. -/
inductive MetadataResult where
  | single (fm : FileMetadata)
  | multi (mm : MultiFileMetadata)
deriving DecidableEq, Repr

/-- `ExifTool.metadata(*file_paths)`.  When exactly one path is given and
`os.path.isfile` (supplied as `isfile`) holds on it, run `execute_json` on
that path at once and wrap the first record (`next(x for x in ...)`) in a
`FileMetadata`; otherwise construct a `MultiFileMetadata` over the paths and
this instance without issuing any query. -/
def ExifTool.metadata (s : ExifTool) (isfile : String → Bool)
    (oracle : List (List Nat) → List Record) (file_paths : List String) :
    Except PyErr MetadataResult × ExifTool :=
  match file_paths with
  | [fp] =>
    if isfile fp then
      let (res, s1) := s.executeJson oracle [fp]
      match res with
      | .error e => (.error e, s1)
      | .ok records =>
        match records with
        | [] => (.error .stopIteration, s1)
        | r :: _ => (.ok (.single (FileMetadata.init r s1)), s1)
    else (.ok (.multi { file_paths := file_paths, exif_tool := s }), s)
  | _ => (.ok (.multi { file_paths := file_paths, exif_tool := s }), s)

/-- Rebinding of the view to the session state it references: a
`MultiFileMetadata` holds a reference to its `ExifTool`, so after the
module-level `with` block terminates the session, the returned view sees the
terminated state. -/
def rebindSession (res : Except PyErr MetadataResult) (s : ExifTool) :
    Except PyErr MetadataResult :=
  match res with
  | .ok (.multi mm) => .ok (.multi { mm with exif_tool := s })
  | other => other

/-- The module-level `metadata(*file_paths)` convenience:
`with ExifTool() as et: return et.metadata(*file_paths)`.  Returns the
result together with the final state of the transient session (which a
returned multi-file view references). -/
def moduleMetadata (isfile : String → Bool)
    (oracle : List (List Nat) → List Record) (freshPid : Nat)
    (file_paths : List String) : Except PyErr MetadataResult × ExifTool :=
  let et0 := ExifTool.init none
  let started := (et0.start freshPid).2
  let (res, et1) := started.metadata isfile oracle file_paths
  let etF := et1.terminate
  (rebindSession res etF, etF)

/-- `batch(executable)`: construct an `ExifTool` without starting it. -/
def batch (executableArg : Option String) : ExifTool :=
  ExifTool.init executableArg

/-- Helper: a Multi-File View operation always obtains the oracle's records,
whatever the bound session's state, provided a running session has a process
handle. -/
theorem execute_ok_of_wf (m : MultiFileMetadata)
    (oracle : List (List Nat) → List Record) (freshPid : Nat)
    (params : List String)
    (hwf : m.exif_tool.running = true → m.exif_tool.process ≠ none) :
    (m._execute oracle freshPid params).1
      = .ok (oracle (jsonFlag :: params.map strBytes)) := by
  unfold MultiFileMetadata._execute withExifTool ExifTool.executeJson
    ExifTool.start ExifTool.terminate
  by_cases h : m.exif_tool.running
  · cases hp : m.exif_tool.process
    · exact absurd hp (hwf h)
    · simp [h, hp]
  · simp [h]

/-- Helper: on a view bound to a fresh non-running session, `_execute` opens
and closes a private session and returns the oracle's records, leaving the
bound session in the freshly-initialized (non-running) state. -/
theorem execute_private_session (paths : List String)
    (oracle : List (List Nat) → List Record) (freshPid : Nat)
    (params : List String) :
    MultiFileMetadata._execute
        { file_paths := paths, exif_tool := ExifTool.init none } oracle freshPid params
      = (.ok (oracle (jsonFlag :: params.map strBytes)), ExifTool.init none) := by
  unfold MultiFileMetadata._execute withExifTool ExifTool.executeJson
    ExifTool.start ExifTool.terminate ExifTool.init
  simp

/-- C2: calling `execute` or `execute_json` on a Session that is not running
(never started or already terminated) raises `ValueError` immediately and
leaves the Session's state unchanged — in particular no bytes are written to
any pipe. -/
theorem C2_execute_not_running (s : ExifTool) (params : List (List Nat))
    (chunks : List (List Nat)) (oracle : List (List Nat) → List Record)
    (jparams : List String) (h : s.running = false) :
    s.execute params chunks
      = (.error (.valueError "ExifTool instance not running."), s) ∧
    s.executeJson oracle jparams
      = (.error (.valueError "ExifTool instance not running."), s) := by
  constructor
  · simp [ExifTool.execute, h]
  · simp [ExifTool.executeJson, h]

/-- Witness for C2 at a concrete never-started instance. -/
theorem C2_execute_not_running_witness :
    (ExifTool.init none).running = false ∧
    (ExifTool.init none).execute [] []
      = (.error (.valueError "ExifTool instance not running."), ExifTool.init none) ∧
    (ExifTool.init none).executeJson (fun _ => []) []
      = (.error (.valueError "ExifTool instance not running."), ExifTool.init none) :=
  ⟨rfl, C2_execute_not_running (ExifTool.init none) [] [] (fun _ => []) [] rfl⟩

/-- C3: reading any field of a Single-File View raises `AttributeError`
rather than returning the record's value: `FileMetadata.__getitem__` reads
`self._values`, which no code path ever assigns.  In particular
`view["SourceFile"]` never yields the file path. -/
theorem C3_getitem_attribute_error (values : Record) (et : ExifTool)
    (key : String) :
    (FileMetadata.init values et).getItem key
      = .error (.attributeError "_values") := rfl

/-- C8: calling `start()` on an already-running Session emits the warning
and changes nothing: the running flag stays true, the process handle keeps
its identity, and no new subprocess is spawned. -/
theorem C8_double_start (s : ExifTool) (freshPid : Nat)
    (h : s.running = true) : s.start freshPid = (true, s) := by
  simp [ExifTool.start, h]

/-- Witness for C8 at a concrete running instance. -/
theorem C8_double_start_witness :
    ({ executable := "exiftool", running := true,
       process := some { pid := 1, stdinWritten := [] } } : ExifTool).running = true ∧
    ({ executable := "exiftool", running := true,
       process := some { pid := 1, stdinWritten := [] } } : ExifTool).start 2
      = (true, { executable := "exiftool", running := true,
                 process := some { pid := 1, stdinWritten := [] } }) :=
  ⟨rfl, C8_double_start _ 2 rfl⟩

/-- C9: `terminate()` on a non-running Session returns without error or side
effects; two consecutive `terminate()` calls leave `running = false` both
times; and `terminate()` followed by `start()` relaunches a fresh subprocess
with `running = true`. -/
theorem C9_terminate_safe (s : ExifTool) (freshPid : Nat) :
    (s.running = false → s.terminate = s) ∧
    s.terminate.running = false ∧
    s.terminate.terminate = s.terminate ∧
    s.terminate.terminate.running = false ∧
    (s.terminate.start freshPid).1 = false ∧
    (s.terminate.start freshPid).2.running = true ∧
    (s.terminate.start freshPid).2.process
      = some { pid := freshPid, stdinWritten := [] } := by
  unfold ExifTool.terminate ExifTool.start
  by_cases h : s.running <;> simp [h]

/-- Witness for C9 at a concrete non-running instance. -/
theorem C9_terminate_safe_witness :
    (ExifTool.init none).terminate = ExifTool.init none ∧
    (ExifTool.init none).terminate.running = false ∧
    ((ExifTool.init none).terminate.start 3).2.running = true :=
  ⟨(C9_terminate_safe (ExifTool.init none) 3).1 rfl,
   (C9_terminate_safe (ExifTool.init none) 3).2.1,
   (C9_terminate_safe (ExifTool.init none) 3).2.2.2.2.2.1⟩

/-- C4 counterexample: mutation is not atomic.  Deleting the key `"a"` from
a Single-File View over the record `[("a", 1)]` raises, but the view's
underlying dict no longer contains the key afterwards: the observable record
contents changed. -/
theorem C4_counterexample :
    ((FileMetadata.init [("a", JVal.num 1)] (ExifTool.init none)).delItem "a").1
        = PyErr.bareRaise ∧
    ¬ (((FileMetadata.init [("a", JVal.num 1)] (ExifTool.init none)).delItem "a").2.store
        = [("a", JVal.num 1)]) := by
  constructor
  · rfl
  · intro h
    exact absurd h (by decide)

/-- C4 amended: every mutation operation on either view always raises — the
multi-file view's mutations leave the view unchanged, but the single-file
view's set stores the new value and its delete removes the key before the
bare `raise` fires (and delete of an absent key raises `KeyError` instead of
the bare-raise error). -/
theorem C4_mutations_raise (fm : FileMetadata) (mm : MultiFileMetadata)
    (k : String) (v : JVal) :
    (fm.setItem k v).1 = PyErr.bareRaise ∧
    (fm.setItem k v).2.store = recSet fm.store k v ∧
    ((fm.delItem k).1 = PyErr.bareRaise ∨ (fm.delItem k).1 = PyErr.keyError k) ∧
    ((fm.delItem k).1 = PyErr.bareRaise → (fm.delItem k).2.store = recDel fm.store k) ∧
    ((fm.delItem k).1 = PyErr.keyError k → (fm.delItem k).2 = fm) ∧
    fm.write = (PyErr.bareRaise, fm) ∧
    mm.setItem k v = (PyErr.bareRaise, mm) ∧
    mm.delItem k = (PyErr.bareRaise, mm) ∧
    mm.write = (PyErr.bareRaise, mm) := by
  unfold FileMetadata.setItem FileMetadata.delItem FileMetadata.write
    MultiFileMetadata.setItem MultiFileMetadata.delItem MultiFileMetadata.write
  by_cases h : ((fm.store.find? (fun kv => kv.1 == k)).isSome : Prop) <;> simp [h]

/-- Witness for C4 amended at concrete views. -/
theorem C4_mutations_raise_witness :
    ((FileMetadata.init [("a", JVal.num 1)] (ExifTool.init none)).setItem "b"
        (JVal.num 2)).1 = PyErr.bareRaise ∧
    (MultiFileMetadata.write { file_paths := ["x"], exif_tool := ExifTool.init none })
      = (PyErr.bareRaise, { file_paths := ["x"], exif_tool := ExifTool.init none }) :=
  ⟨(C4_mutations_raise (FileMetadata.init [("a", JVal.num 1)] (ExifTool.init none))
      { file_paths := ["x"], exif_tool := ExifTool.init none } "b" (JVal.num 2)).1,
   (C4_mutations_raise (FileMetadata.init [("a", JVal.num 1)] (ExifTool.init none))
      { file_paths := ["x"], exif_tool := ExifTool.init none } "b"
      (JVal.num 2)).2.2.2.2.2.2.2.2⟩

/-- C5: `metadata(*paths)` with exactly one path naming an existing regular
file queries immediately (the `-j` batch for that path is written to the
subprocess) and returns a Single-File View over the first resulting record;
in every other case (no single existing regular file) it returns a
Multi-File View bound to the given paths and this client's session with the
session state untouched — no bytes written, no query issued. -/
theorem C5_metadata_dispatch (s : ExifTool) (isfile : String → Bool)
    (oracle : List (List Nat) → List Record) (paths : List String)
    (fp : String) (p : Proc) (r : Record) (rest : List Record) :
    (paths = [fp] → isfile fp = true → s.running = true → s.process = some p →
      oracle [jsonFlag, strBytes fp] = r :: rest →
      s.metadata isfile oracle paths
        = (.ok (.single (FileMetadata.init r s)),
           { s with process := some { p with
               stdinWritten := p.stdinWritten
                 ++ frameParams [jsonFlag, strBytes fp] } })) ∧
    ((∀ q, paths = [q] → isfile q = false) →
      s.metadata isfile oracle paths
        = (.ok (.multi { file_paths := paths, exif_tool := s }), s)) ∧
    (paths.length ≠ 1 →
      s.metadata isfile oracle paths
        = (.ok (.multi { file_paths := paths, exif_tool := s }), s)) := by
  refine ⟨?_, ?_, ?_⟩
  · rintro rfl hfile hrun hp hor
    simp [ExifTool.metadata, ExifTool.executeJson, FileMetadata.init,
      hfile, hrun, hp, hor]
  · intro hno
    match paths with
    | [] => rfl
    | [q] => simp [ExifTool.metadata, hno q rfl]
    | a :: b :: t => rfl
  · intro hne
    match paths with
    | [] => rfl
    | [q] => exact absurd rfl hne
    | a :: b :: t => rfl

/-- Witness for C5: a concrete single-existing-file call and a concrete
two-path call. -/
theorem C5_metadata_dispatch_witness :
    (({ executable := "exiftool", running := true,
        process := some { pid := 1, stdinWritten := [] } } : ExifTool).metadata
          (fun _ => true) (fun _ => [[("SourceFile", JVal.str "a.jpg")]]) ["a.jpg"]
        = (.ok (.single (FileMetadata.init [("SourceFile", JVal.str "a.jpg")]
            { executable := "exiftool", running := true,
              process := some { pid := 1, stdinWritten := [] } })),
           { executable := "exiftool", running := true,
             process :=
               some { pid := 1,
                      stdinWritten := frameParams [jsonFlag, strBytes "a.jpg"] } })) ∧
    ((ExifTool.init none).metadata (fun _ => true) (fun _ => []) ["a", "b"]
        = (.ok (.multi { file_paths := ["a", "b"], exif_tool := ExifTool.init none }),
           ExifTool.init none)) :=
  ⟨(C5_metadata_dispatch _ _ _ ["a.jpg"] "a.jpg" { pid := 1, stdinWritten := [] }
      [("SourceFile", JVal.str "a.jpg")] []).1 rfl rfl rfl rfl rfl,
   (C5_metadata_dispatch (ExifTool.init none) (fun _ => true) (fun _ => [])
      ["a", "b"] "a" { pid := 1, stdinWritten := [] } [] []).2.2 (by decide)⟩

/-- C7: a Multi-File View operation never changes the bound session's
running flag.  When the bound session is running, the operation reuses it
(the batch is written to the existing process, which keeps its identity and
stays running); when it is not, the operation runs inside a private session
that is terminated before returning, so the flag is false again
afterwards. -/
theorem C7_session_policy (m : MultiFileMetadata)
    (oracle : List (List Nat) → List Record) (freshPid : Nat)
    (params : List String) :
    ((m._execute oracle freshPid params).2.running = m.exif_tool.running) ∧
    (m.exif_tool.running = false →
      (m._execute oracle freshPid params)
        = (.ok (oracle (jsonFlag :: params.map strBytes)),
           { m.exif_tool with running := false, process := none })) ∧
    (m.exif_tool.running = true → ∀ p, m.exif_tool.process = some p →
      (m._execute oracle freshPid params)
        = (.ok (oracle (jsonFlag :: params.map strBytes)),
           { m.exif_tool with process := some { p with
               stdinWritten := p.stdinWritten
                 ++ frameParams (jsonFlag :: params.map strBytes) } })) := by
  unfold MultiFileMetadata._execute withExifTool ExifTool.executeJson
    ExifTool.start ExifTool.terminate
  by_cases h : m.exif_tool.running
  · cases hp : m.exif_tool.process <;> simp [h, hp]
  · simp [h]

/-- Witness for C7: one concrete view over a non-running session and one
over a running session. -/
theorem C7_session_policy_witness :
    (MultiFileMetadata._execute
        { file_paths := ["a"], exif_tool := ExifTool.init none }
        (fun _ => []) 9 ["-r", "a"]
      = (.ok [], { executable := "exiftool", running := false, process := none })) ∧
    (MultiFileMetadata._execute
        { file_paths := ["a"],
          exif_tool := { executable := "exiftool", running := true,
                         process := some { pid := 4, stdinWritten := [] } } }
        (fun _ => []) 9 ["-r", "a"]
      = (.ok [],
         { executable := "exiftool", running := true,
           process :=
             some { pid := 4,
                    stdinWritten :=
                      frameParams (jsonFlag :: (["-r", "a"].map strBytes)) } })) :=
  ⟨(C7_session_policy { file_paths := ["a"], exif_tool := ExifTool.init none }
      (fun _ => []) 9 ["-r", "a"]).2.1 rfl,
   (C7_session_policy
      { file_paths := ["a"],
        exif_tool := { executable := "exiftool", running := true,
                       process := some { pid := 4, stdinWritten := [] } } }
      (fun _ => []) 9 ["-r", "a"]).2.2 rfl { pid := 4, stdinWritten := [] } rfl⟩

/-- C6: field projection over a Multi-File View yields one value per record
in file order — the value of the tag in that file's record, or `none` when
the tag is absent.  Assuming the external tool returns one record per file
(`hN`), in the same order for the restricted and the full query (`hpt`),
the projection yields exactly `N` values matching the records obtained by
full iteration. -/
theorem C6_field_projection (m : MultiFileMetadata)
    (oracle : List (List Nat) → List Record) (pid1 pid2 : Nat) (key : String)
    (iterRecs projRecs : List Record)
    (hwf : m.exif_tool.running = true → m.exif_tool.process ≠ none)
    (hProj : oracle (jsonFlag :: ((("-" ++ key) :: "-r" :: m.file_paths).map strBytes))
        = projRecs)
    (hIter : oracle (jsonFlag :: (("-r" :: m.file_paths).map strBytes)) = iterRecs)
    (hN : iterRecs.length = m.file_paths.length)
    (hpt : projRecs.map (fun r => recGet r key) = iterRecs.map (fun r => recGet r key)) :
    (m.getItem oracle pid1 key).1 = .ok (iterRecs.map (fun r => recGet r key)) ∧
    (iterRecs.map (fun r => recGet r key)).length = m.file_paths.length ∧
    ∃ fms : List FileMetadata,
      (m.iterate oracle pid2).1 = .ok fms ∧
      fms.map (fun fm => fm.store) = iterRecs := by
  have h1 := execute_ok_of_wf m oracle pid1 (("-" ++ key) :: "-r" :: m.file_paths) hwf
  have h2 := execute_ok_of_wf m oracle pid2 ("-r" :: m.file_paths) hwf
  refine ⟨?_, by simp [hN], ?_⟩
  · show ((m._execute oracle pid1 (("-" ++ key) :: "-r" :: m.file_paths)).1).map _
        = _
    rw [h1, hProj]
    simp [Except.map, hpt]
  · refine ⟨iterRecs.map (fun r =>
      FileMetadata.init r (m._execute oracle pid2 ("-r" :: m.file_paths)).2), ?_, ?_⟩
    · show ((m._execute oracle pid2 ("-r" :: m.file_paths)).1).map _ = _
      rw [h2, hIter]
      simp [Except.map, FileMetadata.init]
    · simp [Function.comp_def, FileMetadata.init]

/-- Witness for C6: one file, one record carrying the projected tag. -/
theorem C6_field_projection_witness :
    (MultiFileMetadata.getItem
        { file_paths := ["a"], exif_tool := ExifTool.init none }
        (fun _ => [[("T", JVal.str "v")]]) 1 "T").1
      = .ok [some (JVal.str "v")] := by
  have h := C6_field_projection
    { file_paths := ["a"], exif_tool := ExifTool.init none }
    (fun _ => [[("T", JVal.str "v")]]) 1 2 "T"
    [[("T", JVal.str "v")]] [[("T", JVal.str "v")]]
    (by intro hr; exact absurd hr (by decide)) rfl rfl (by decide) rfl
  simpa [recGet] using h.1

/-- C10: the module-level `metadata` convenience with anything other than a
single existing regular file returns a Multi-File View whose bound session
has `running = false` at the moment the call returns (the transient session
was terminated before any multi-file query), and later iteration or field
projection of that view still succeeds by opening and closing a private
session, leaving the session non-running again. -/
theorem C10_module_metadata_transient (isfile : String → Bool)
    (oracle : List (List Nat) → List Record) (pid1 pid2 pid3 : Nat)
    (paths : List String) (key : String)
    (hno : ∀ q, paths = [q] → isfile q = false) :
    (ExifTool.init none).running = false ∧
    moduleMetadata isfile oracle pid1 paths
      = (.ok (.multi { file_paths := paths, exif_tool := ExifTool.init none }),
         ExifTool.init none) ∧
    (MultiFileMetadata.iterate
        { file_paths := paths, exif_tool := ExifTool.init none } oracle pid2)
      = (.ok ((oracle (jsonFlag :: (("-r" :: paths).map strBytes))).map
          (fun r => FileMetadata.init r (ExifTool.init none))), ExifTool.init none) ∧
    (MultiFileMetadata.getItem
        { file_paths := paths, exif_tool := ExifTool.init none } oracle pid3 key)
      = (.ok ((oracle (jsonFlag :: ((("-" ++ key) :: "-r" :: paths).map strBytes))).map
          (fun r => recGet r key)), ExifTool.init none) := by
  refine ⟨rfl, ?_, ?_, ?_⟩
  · unfold moduleMetadata
    match hp : paths with
    | [] => rfl
    | [q] =>
      simp [ExifTool.metadata, ExifTool.start, ExifTool.init, ExifTool.terminate,
        rebindSession, hno q rfl]
    | a :: b :: t => rfl
  · unfold MultiFileMetadata.iterate
    rw [execute_private_session]
    simp [Except.map, FileMetadata.init]
  · unfold MultiFileMetadata.getItem
    rw [execute_private_session]
    simp [Except.map]

/-- Witness for C10 at two concrete paths. -/
theorem C10_module_metadata_transient_witness :
    moduleMetadata (fun _ => true) (fun _ => []) 1 ["a", "b"]
      = (.ok (.multi { file_paths := ["a", "b"], exif_tool := ExifTool.init none }),
         ExifTool.init none) :=
  (C10_module_metadata_transient (fun _ => true) (fun _ => []) 1 2 3 ["a", "b"] "T"
    (by intro q h; exact absurd h (by simp))).2.1

/-- Helper: `dropWhile` does not remove anything from a byte string that
starts with the sentinel, whose first byte is not whitespace. -/
theorem dropWhile_sentinel (rest : List Nat) :
    List.dropWhile isSpaceByte (sentinelBytes ++ rest) = sentinelBytes ++ rest := by
  simp [sentinelBytes, List.dropWhile_cons, isSpaceByte]

/-- Helper: left-stripping stops no later than the sentinel. -/
theorem stripLeftB_append_sentinel (before rest : List Nat) :
    stripLeftB (before ++ (sentinelBytes ++ rest))
      = stripLeftB before ++ (sentinelBytes ++ rest) := by
  unfold stripLeftB
  rw [List.dropWhile_append]
  split
  · next h =>
    rw [List.isEmpty_iff] at h
    rw [h]
    simpa using dropWhile_sentinel rest
  · rfl

/-- Helper: right-stripping a byte string ending in the sentinel followed by
whitespace removes exactly that whitespace (the sentinel's last byte is not
whitespace). -/
theorem stripRightB_append_trail (z trail : List Nat)
    (ht : ∀ b ∈ trail, isSpaceByte b = true) :
    stripRightB ((z ++ sentinelBytes) ++ trail) = z ++ sentinelBytes := by
  unfold stripRightB
  rw [List.reverse_append, List.dropWhile_append]
  have h0 : trail.reverse.dropWhile isSpaceByte = [] :=
    List.dropWhile_eq_nil_iff.mpr (fun x hx => ht x (List.mem_reverse.mp hx))
  rw [h0]
  have hs : sentinelBytes.reverse = [125, 121, 100, 97, 101, 114, 123] := rfl
  rw [List.reverse_append, hs]
  have h1 : List.dropWhile isSpaceByte
      ([125, 121, 100, 97, 101, 114, 123] ++ z.reverse)
        = [125, 121, 100, 97, 101, 114, 123] ++ z.reverse := by
    simp [List.dropWhile_cons, isSpaceByte]
  simp only [List.isEmpty_nil, if_true]
  rw [h1, List.reverse_append, List.reverse_reverse]
  rw [show ([125, 121, 100, 97, 101, 114, 123] : List Nat).reverse = sentinelBytes from rfl]

/-- Helper: stripping a stream of the form `before ++ sentinel ++ trail`
(with `trail` whitespace) keeps everything from the first non-whitespace
byte through the sentinel. -/
theorem stripB_decomp (before trail : List Nat)
    (ht : ∀ b ∈ trail, isSpaceByte b = true) :
    stripB (before ++ sentinelBytes ++ trail) = stripLeftB before ++ sentinelBytes := by
  unfold stripB
  rw [List.append_assoc, stripLeftB_append_sentinel]
  rw [show stripLeftB before ++ (sentinelBytes ++ trail)
      = (stripLeftB before ++ sentinelBytes) ++ trail from by rw [List.append_assoc]]
  exact stripRightB_append_trail _ trail ht

/-- Helper: the read-loop guard fires on a stream ending in the sentinel
plus at most 25 whitespace bytes (so that the sentinel is inside the 32-byte
window the guard inspects). -/
theorem sentinelSeen_stream (before trail : List Nat)
    (ht : ∀ b ∈ trail, isSpaceByte b = true) (hlen : trail.length ≤ 25) :
    sentinelSeen (before ++ sentinelBytes ++ trail) = true := by
  unfold sentinelSeen lastN
  have hL : (before ++ sentinelBytes ++ trail).length
      = before.length + 7 + trail.length := by
    simp [sentinelBytes]
    omega
  have hk : (before ++ sentinelBytes ++ trail).length - 32 ≤ before.length := by
    omega
  rw [List.append_assoc, List.drop_append_of_le_length (by rw [← List.append_assoc]; exact hk)]
  rw [← List.append_assoc, stripB_decomp _ trail ht]
  rw [List.isSuffixOf_iff_suffix]
  exact List.suffix_append _ _

/-- C1 counterexample: on a running session whose subprocess writes the
payload `"abc"` followed by whitespace (`"\n"`), the sentinel, and no
trailing whitespace, `execute` returns `"abc\n"` — the whitespace between
payload and sentinel is retained — not the payload `"abc"` exactly. -/
theorem C1_counterexample :
    (({ executable := "exiftool", running := true,
        process := some { pid := 1, stdinWritten := [] } } : ExifTool).execute []
        [[97, 98, 99] ++ [10] ++ sentinelBytes]).1
      = .ok [97, 98, 99, 10] ∧
    ¬ ((({ executable := "exiftool", running := true,
           process := some { pid := 1, stdinWritten := [] } } : ExifTool).execute []
          [[97, 98, 99] ++ [10] ++ sentinelBytes]).1
        = .ok [97, 98, 99]) := by
  constructor
  · decide
  · decide

/-- C1 amended: on a running session, for a response stream delivered as
`before ++ sentinel ++ trail` (with `trail` whitespace of at most 25 bytes,
keeping the sentinel inside the 32-byte guard window), `execute` writes the
framed batch and returns `before` with only its leading whitespace stripped:
whitespace between the payload and the sentinel is retained, so the result
equals the payload exactly only when the payload has no leading whitespace
and the sentinel immediately follows it. -/
theorem C1_execute_amended (s : ExifTool) (p : Proc) (params : List (List Nat))
    (before trail : List Nat)
    (hrun : s.running = true) (hp : s.process = some p)
    (ht : ∀ b ∈ trail, isSpaceByte b = true) (hlen : trail.length ≤ 25) :
    s.execute params [before ++ sentinelBytes ++ trail]
      = (.ok (stripLeftB before),
         { s with process := some { p with
             stdinWritten := p.stdinWritten ++ frameParams params } }) := by
  have h0 : sentinelSeen ([] : List Nat) = false := rfl
  have h1 : sentinelSeen (before ++ sentinelBytes ++ trail) = true :=
    sentinelSeen_stream before trail ht hlen
  have hloop : readLoop [] [before ++ sentinelBytes ++ trail]
      = some (before ++ sentinelBytes ++ trail) := by
    unfold readLoop
    rw [h0]
    simp only [if_false, List.nil_append]
    unfold readLoop
    rw [h1]
    simp
  unfold ExifTool.execute
  rw [hrun]
  simp only [if_true, hp]
  rw [hloop]
  dsimp only
  rw [stripB_decomp before trail ht]
  have hlen7 : (stripLeftB before ++ sentinelBytes).length - sentinelBytes.length
      = (stripLeftB before).length := by
    simp [sentinelBytes]
  rw [hlen7]
  rw [List.take_left]

/-- Witness for C1 amended: payload `"abc"`, sentinel, trailing `"\n"`. -/
theorem C1_execute_amended_witness :
    ({ executable := "exiftool", running := true,
       process := some { pid := 1, stdinWritten := [] } } : ExifTool).execute []
        [[97, 98, 99] ++ sentinelBytes ++ [10]]
      = (.ok [97, 98, 99],
         { executable := "exiftool", running := true,
           process := some { pid := 1, stdinWritten := frameParams [] } }) := by
  have h := C1_execute_amended
    { executable := "exiftool", running := true,
      process := some { pid := 1, stdinWritten := [] } }
    { pid := 1, stdinWritten := [] } [] [97, 98, 99] [10]
    rfl rfl (by decide) (by decide)
  rw [h]
  decide
